import Mathlib

/-!
Shallow embedding of the grounded-retrieval core of the SupplyMind
repository (`backend/ai_copilot/views.py` and `scripts/enhanced_seed_demo.py`),
with theorems settling the frozen claims about its specification.

Python dictionaries whose values matter to the claims are modelled as
association lists of `String × PyVal`; machine floats used for latencies
and similarity scores are modelled as rationals (the code performs no
float-specific arithmetic on them), and the seed script's embedding
vectors as reals.  Wall-clock durations measured by `time.time()` are
passed in as explicit parameters.  Calls into external services
(Supabase PostgREST, OpenAI, HuggingFace) are modelled as oracle
functions returning `Except Unit` results: a `.error` models the call
raising an exception, which the Python code catches.
-/

/-- A Python scalar value as it appears in retrieved rows and filter
dictionaries. -/
inductive PyVal where
  | null
  | int (n : Int)
  | str (s : String)
  | bool (b : Bool)
deriving DecidableEq

/-- Python `str(v)` for the modelled values. -/
def pyStr : PyVal → String
  | .null => "None"
  | .int n => toString n
  | .str s => s
  | .bool b => if b then "True" else "False"

/-- Python truthiness of a modelled value. -/
def pyTruthy : PyVal → Bool
  | .null => false
  | .int n => n != 0
  | .str s => s != ""
  | .bool b => b

/-- Python `int(v)`: raises (models as `.error`) on `None` and
non-numeric strings. -/
def pyToInt : PyVal → Except Unit Int
  | .null => .error ()
  | .int n => .ok n
  | .bool b => .ok (if b then 1 else 0)
  | .str s =>
    match s.toInt? with
    | some n => .ok n
    | none => .error ()

/-- A retrieved row / a Python dict: an association list of field name
to value (keys unique in practice; lookup takes the first match, as a
Python dict would). -/
abbrev Row := List (String × PyVal)

/-- Filter dictionaries have the same shape as rows. -/
abbrev Filters := Row

/-- Dictionary lookup (`row[k]` / `k in row`). -/
def dictGet (k : String) : Row → Option PyVal
  | [] => none
  | (k2, v) :: rest => if k2 = k then some v else dictGet k rest

/-- Python `{**d, k: v}`: replace the value of `k` in place if present,
append the pair otherwise. -/
def dictSet (k : String) (v : PyVal) : Row → Row
  | [] => [(k, v)]
  | (k2, v2) :: rest => if k2 = k then (k2, v) :: rest else (k2, v2) :: dictSet k v rest

/-- Predicate `leadsWith needle hay` holds when `needle` is an initial segment of
`hay` (Python `str.startswith`). -/
def leadsWith : List Char → List Char → Bool
  | [], _ => true
  | _ :: _, [] => false
  | a :: as, b :: bs => a == b && leadsWith as bs

/-- Characters removed by Python's default `str.strip()`. -/
def isSpaceChar (c : Char) : Bool :=
  c == ' ' || c == '\t' || c == '\n' || c == '\r' || c == '\x0b' || c == '\x0c'

/-- Python `s.strip()`. -/
def pyStrip (s : String) : String :=
  ⟨((s.data.dropWhile isSpaceChar).reverse.dropWhile isSpaceChar).reverse⟩

/-- Python `s.lower()` (the source only lowercases ASCII text). -/
def pyLower (s : String) : String :=
  ⟨s.data.map Char.toLower⟩

/-- Python `s.startswith(p)`. -/
def pyStarts (s p : String) : Bool :=
  leadsWith p.data s.data

/-- Membership test on character lists underlying Python's
`needle in hay` substring operator. -/
def charsContains (needle : List Char) : List Char → Bool
  | [] => needle.isEmpty
  | c :: t => leadsWith needle (c :: t) || charsContains needle t

/-- Python `needle in hay` on strings. -/
def strContains (hay needle : String) : Bool :=
  charsContains needle.data hay.data

/-- Structure `RetrievalResult` from `ai_copilot/views.py`: one evidence batch. -/
structure RetrievalResult where
  source : String
  rows : List Row
  query_ms : ℚ
deriving DecidableEq

/-- A citation as built by `format_answer`: the batch's source label and
the full original row. -/
structure Citation where
  source : String
  row : Row
deriving DecidableEq

/-- The dictionary returned by `format_answer`. -/
structure Answer where
  answer : String
  citations : List Citation
  sources : List String
deriving DecidableEq

/-- The fixed insufficiency sentence from `format_answer`. -/
def insufficiencyMsg : String :=
  "Insufficient data in supply chain database to answer. Please refine your query."

/-- The fixed grounded-answer opening text from `format_answer`. -/
def answerLead : String := "Based on Supabase data: "

/-- The fixed allow-list of field names rendered into snippets, in the
order the code iterates them. -/
def keyFieldOrder : List String :=
  ["sku", "id", "order_no", "status", "quantity", "location", "metric", "value", "severity"]

/-- Total row count across all evidence batches
(`sum(len(e.rows) for e in evidences)`). -/
def totalRows (evidences : List RetrievalResult) : Nat :=
  (evidences.map (fun e => e.rows.length)).sum

/-- All rows across all batches, in retrieval order. -/
def allRows (evidences : List RetrievalResult) : List Row :=
  evidences.flatMap (fun e => e.rows)

/-- The inner `for k in [...]` loop of `format_answer`: collect
`"k=v"` fragments for allow-listed keys present with non-null values. -/
def rowFields (row : Row) : List String :=
  keyFieldOrder.foldl
    (fun key_fields k =>
      match dictGet k row with
      | some v => if v = PyVal.null then key_fields else key_fields ++ [k ++ "=" ++ pyStr v]
      | none => key_fields)
    []

/-- One step of the `for row in ev.rows` loop of `format_answer`:
append the row's snippet when it has any rendered fields, and always
append a citation. -/
def consolidateRow (src : String) (acc : List String × List Citation) (row : Row) :
    List String × List Citation :=
  (if rowFields row = [] then acc.1 else acc.1 ++ [String.intercalate "; " (rowFields row)],
   acc.2 ++ [⟨src, row⟩])

/-- The snippet/citation accumulation loops of `format_answer`. -/
def consolidate (evidences : List RetrievalResult) : List String × List Citation :=
  evidences.foldl (fun acc ev => ev.rows.foldl (consolidateRow ev.source) acc) ([], [])

/-- Function `format_answer` from `ai_copilot/views.py`. -/
def format_answer (question : String) (evidences : List RetrievalResult) : Answer :=
  if totalRows evidences = 0 then
    { answer := insufficiencyMsg
      citations := []
      sources := evidences.map (fun e => e.source) }
  else
    let sc := consolidate evidences
    { answer := answerLead ++ String.intercalate "; " (sc.1.take 10)
      citations := sc.2
      sources := evidences.map (fun e => e.source) }

/-- Rendering of a single allow-listed field per the spec's wording:
the value for `k` when present and non-null, shown as `k=value`. -/
def fieldEntry (row : Row) (k : String) : Option String :=
  match dictGet k row with
  | some v => if v = PyVal.null then none else some (k ++ "=" ++ pyStr v)
  | none => none

/-- Per-row snippet per the spec's wording: the `key=value` fragments
for allow-listed fields joined by `"; "`, or nothing when the row has
none of them. -/
def specSnippet (row : Row) : Option String :=
  let fields := keyFieldOrder.filterMap (fieldEntry row)
  if fields = [] then none else some (String.intercalate "; " fields)

/-- All row snippets across batches in retrieval order, per the spec's
wording. -/
def specSnippets (evidences : List RetrievalResult) : List String :=
  (allRows evidences).filterMap specSnippet

/-- One citation per retrieved row, preserving the source label and the
full original row, in retrieval order across batches, per the spec's
wording. -/
def specCitations (evidences : List RetrievalResult) : List Citation :=
  evidences.flatMap (fun e => e.rows.map (fun r => ⟨e.source, r⟩))

/-- The grounded answer text per the spec's wording: the fixed opening
text followed by at most the first 10 snippets, semicolon-joined. -/
def specAnswerText (evidences : List RetrievalResult) : String :=
  answerLead ++ String.intercalate "; " ((specSnippets evidences).take 10)

/-- One filter operation the lightweight SQL router applies to a table
query (`.eq`, `.gte`, `.limit` on the Supabase query builder). -/
inductive QueryOp where
  | eqF (col : String) (v : PyVal)
  | gteF (col : String) (v : PyVal)
  | limitF (n : Int)
deriving DecidableEq

/-- Oracle model of a connected Supabase client: each method returns
`.error ()` when the underlying call raises, and `.ok none` models a
response whose `data` attribute is `None`. -/
structure Backend where
  tableq : String → List QueryOp → Except Unit (Option (List Row))
  rpc : PyVal → Option PyVal → Except Unit (Option (List Row))
  matchEmb : List ℚ → Int → ℚ → Except Unit (Option (List Row))

/-- Function `get_embedding` from `ai_copilot/views.py`: `None` when
`OPENAI_API_KEY` is unset or empty, otherwise the backend's vector, and
`None` again when the backend call raises. -/
def get_embedding (apiKey : Option String) (embedFn : String → Except Unit (List ℚ))
    (text : String) : Option (List ℚ) :=
  if apiKey.getD "" = "" then none
  else
    match embedFn text with
    | .ok v => some v
    | .error _ => none

/-- Filter operations for the `inventory` route of `run_sql`
(`sku` equality, integer `limit`). -/
def inventoryOps (params : Option Filters) : Except Unit (List QueryOp) := do
  let opsSku :=
    match params.bind (dictGet "sku") with
    | some v => [QueryOp.eqF "sku" v]
    | none => []
  let opsLimit : List QueryOp ←
    match params.bind (dictGet "limit") with
    | some v => (pyToInt v).map (fun n => [QueryOp.limitF n])
    | none => pure []
  pure (opsSku ++ opsLimit)

/-- Filter operations for the `orders` route of `run_sql`. -/
def ordersOps (params : Option Filters) : Except Unit (List QueryOp) := do
  let opsId :=
    match params.bind (dictGet "order_id") with
    | some v => [QueryOp.eqF "id" v]
    | none => []
  let opsStatus :=
    match params.bind (dictGet "status") with
    | some v => [QueryOp.eqF "status" v]
    | none => []
  let opsLimit : List QueryOp ←
    match params.bind (dictGet "limit") with
    | some v => (pyToInt v).map (fun n => [QueryOp.limitF n])
    | none => pure []
  pure (opsId ++ opsStatus ++ opsLimit)

/-- Filter operations for the `risk_events` route of `run_sql`. -/
def riskOps (params : Option Filters) : List QueryOp :=
  (match params.bind (dictGet "severity") with
   | some v => [QueryOp.gteF "severity" v]
   | none => []) ++
  (match params.bind (dictGet "since") with
   | some v => [QueryOp.gteF "event_time" v]
   | none => [])

/-- Filter operations for the `analytics_metrics` route of `run_sql`. -/
def analyticsOps (params : Option Filters) : List QueryOp :=
  (match params.bind (dictGet "metric") with
   | some v => [QueryOp.eqF "metric" v]
   | none => []) ++
  (match params.bind (dictGet "since") with
   | some v => [QueryOp.gteF "ts" v]
   | none => [])

/-- The body of `run_sql`'s `try` block: the naive router over the four
table patterns, with the RPC escape hatch in the `else` branch.  A
`.error` result models any exception raised inside the `try`. -/
def runSqlBody (b : Backend) (sql : String) (params : Option Filters) :
    Except Unit (List Row) :=
  let sql_l := pyLower (pyStrip sql)
  if pyStarts sql_l "select" && strContains sql_l " from inventory" then do
    let ops ← inventoryOps params
    let data ← b.tableq "inventory" ops
    pure (data.getD [])
  else if pyStarts sql_l "select" && strContains sql_l " from orders" then do
    let ops ← ordersOps params
    let data ← b.tableq "orders" ops
    pure (data.getD [])
  else if pyStarts sql_l "select" && strContains sql_l " from risk_events" then do
    let data ← b.tableq "risk_events" (riskOps params)
    pure (data.getD [])
  else if pyStarts sql_l "select" && strContains sql_l " from analytics_metrics" then do
    let data ← b.tableq "analytics_metrics" (analyticsOps params)
    pure (data.getD [])
  else
    match params.bind (dictGet "rpc") with
    | some fn =>
      if pyTruthy fn then do
        let data ← b.rpc fn (params.bind (dictGet "args"))
        pure (data.getD [])
      else pure []
    | none => pure []

/-- Function `run_sql` from `ai_copilot/views.py`.  Taking `client = none` models the
module-level `supabase` handle being unset; `elapsedMs` is the measured
`(time.time() - start) * 1000` of the call. -/
def run_sql (client : Option Backend) (elapsedMs : ℚ) (sql : String)
    (params : Option Filters) : RetrievalResult :=
  match client with
  | none => { source := "supabase", rows := [], query_ms := 0 }
  | some b =>
    match runSqlBody b sql params with
    | .ok rows => { source := "supabase", rows := rows, query_ms := elapsedMs }
    | .error _ => { source := "supabase", rows := [], query_ms := elapsedMs }

/-- Function `vector_search` from `ai_copilot/views.py`.  The Python guard
`if not vec:` is falsy both for `None` and for an empty vector. -/
def vector_search (client : Option Backend) (apiKey : Option String)
    (embedFn : String → Except Unit (List ℚ)) (elapsedMs : ℚ)
    (query : String) (top_k : Int) (threshold : ℚ) : RetrievalResult :=
  match client with
  | none => { source := "vector", rows := [], query_ms := 0 }
  | some b =>
    match get_embedding apiKey embedFn query with
    | none => { source := "vector", rows := [], query_ms := elapsedMs }
    | some v =>
      if v = [] then { source := "vector", rows := [], query_ms := elapsedMs }
      else
        match b.matchEmb v top_k threshold with
        | .ok data => { source := "vector", rows := data.getD [], query_ms := elapsedMs }
        | .error _ => { source := "vector", rows := [], query_ms := elapsedMs }

/-- Inventory-domain routing keywords from `CopilotChatView.post`. -/
def inventoryKeywords : List String :=
  ["stock", "inventory", "sku", "warehouse", "on hand", "reorder"]

/-- Orders-domain routing keywords from `CopilotChatView.post`. -/
def ordersKeywords : List String :=
  ["order", "fulfill", "shipment", "backorder", "eta", "delivery"]

/-- Risk-domain routing keywords from `CopilotChatView.post`. -/
def riskKeywords : List String :=
  ["risk", "disruption", "delay", "incident", "alert"]

/-- Analytics-domain routing keywords from `CopilotChatView.post`. -/
def analyticsKeywords : List String :=
  ["kpi", "metric", "fill rate", "otif", "forecast", "trend", "analytics"]

/-- Python `any(w in ql for w in kws)`. -/
def kwMatch (kws : List String) (ql : String) : Bool :=
  kws.any (fun w => strContains ql w)

/-- The keyword intent routing of `CopilotChatView.post`: the list of
`(domain, sql, params)` triples appended for the lower-cased question. -/
def copilotIntents (question : String) (filters : Filters) (top_k : Int) :
    List (String × String × Filters) :=
  let ql := pyLower question
  (if kwMatch inventoryKeywords ql then
    [("inventory", "select * from inventory", dictSet "limit" (PyVal.int top_k) filters)]
   else []) ++
  (if kwMatch ordersKeywords ql then
    [("orders", "select * from orders", dictSet "limit" (PyVal.int top_k) filters)]
   else []) ++
  (if kwMatch riskKeywords ql then
    [("risk_events", "select * from risk_events", filters)]
   else []) ++
  (if kwMatch analyticsKeywords ql then
    [("analytics_metrics", "select * from analytics_metrics", filters)]
   else [])

/-- The ambient environment of one `CopilotChatView.post` request:
the optional Supabase client, the optional OpenAI key, the embedding
backend oracle, and the measured wall-clock durations of the vector and
SQL retrieval calls. -/
structure Env where
  client : Option Backend
  apiKey : Option String
  embedFn : String → Except Unit (List ℚ)
  elapsedVec : ℚ
  elapsedSql : ℚ

/-- The evidence assembly of `CopilotChatView.post`: the vector search
batch first (always attempted), then one `run_sql` batch per matched
intent with its `source` overwritten by the domain label. -/
def copilotEvidences (env : Env) (question : String) (filters : Filters)
    (top_k : Int) : List RetrievalResult :=
  vector_search env.client env.apiKey env.embedFn env.elapsedVec question
      (min top_k 10) (15 / 100) ::
    (copilotIntents question filters top_k).map
      (fun t => { run_sql env.client env.elapsedSql t.2.1 (some t.2.2) with source := t.1 })

/-- The response body built by `CopilotChatView.post` (before the
`retrieval_ms` field is attached). -/
def copilotAnswer (env : Env) (question : String) (filters : Filters)
    (top_k : Int) : Answer :=
  format_answer question (copilotEvidences env question filters top_k)

/-- Constant `EMBED_DIM` from `scripts/enhanced_seed_demo.py`. -/
def EMBED_DIM : Nat := 768

/-- One row of `np.random.randn(n, EMBED_DIM)`: the next `EMBED_DIM`
draws from the process-global NumPy random stream, starting at
position `pos`. -/
def randRow (stream : Nat → ℝ) (pos : Nat) : List ℝ :=
  (List.range EMBED_DIM).map (fun j => stream (pos + j))

/-- Euclidean norm of a vector (`np.linalg.norm`). -/
noncomputable def l2norm (v : List ℝ) : ℝ :=
  Real.sqrt ((v.map (fun x => x ^ 2)).sum)

/-- Row-wise normalization `vecs / np.linalg.norm(vecs, axis=1)`. -/
noncomputable def l2normalize (v : List ℝ) : List ℝ :=
  v.map (fun x => x / l2norm v)

/-- The `np.random.randn(n, EMBED_DIM)` fallback of `embed_texts`,
normalized row by row: row `i` consumes stream positions
`pos + i * EMBED_DIM` through `pos + (i + 1) * EMBED_DIM - 1`. -/
noncomputable def randUnitRows (stream : Nat → ℝ) (pos : Nat) (n : Nat) : List (List ℝ) :=
  (List.range n).map (fun i => l2normalize (randRow stream (pos + i * EMBED_DIM)))

/-- Function `embed_texts` from `scripts/enhanced_seed_demo.py`: try the OpenAI
oracle, then the HuggingFace oracle, and as a last resort draw random
unit vectors from the global NumPy stream.  Returns the vectors
together with the stream position after the call (the RNG state
advances by `len(texts) * EMBED_DIM` draws on the random path). -/
noncomputable def embed_texts (openaiFn hfFn : List String → Except Unit (List (List ℝ)))
    (stream : Nat → ℝ) (pos : Nat) (texts : List String) :
    List (List ℝ) × Nat :=
  match openaiFn texts with
  | .ok vs => (vs, pos)
  | .error _ =>
    match hfFn texts with
    | .ok vs => (vs, pos)
    | .error _ => (randUnitRows stream pos texts.length, pos + texts.length * EMBED_DIM)

/-- An embedding backend that always raises (no key installed, no model
package available). -/
def failEmbedBackend : List String → Except Unit (List (List ℝ)) :=
  fun _ => .error ()

/-- A concrete NumPy-stream valuation used to exhibit two distinct
successive fallback draws: ones up to position 768, zeros afterwards. -/
def demoStream : Nat → ℝ :=
  fun j => if j < 769 then 1 else 0

/-- A stored embedding row as the semantic-search engine retrieves it
(`VectorEmbedding` in `ai_copilot/models.py` / `StoredEmbedding` in the
spec). -/
structure EmbeddingRecord where
  id : String
  content : String
  vector : List ℚ
  source_type : String
  source_id : String
  metadata : List (String × PyVal)
deriving DecidableEq

/-- A ranked semantic-search result (`SearchHit` in the spec), extended
with the candidate's original retrieval position so the stability of
the ranking can be stated. -/
structure SearchHit where
  content : String
  similarity_score : ℚ
  source_type : String
  source_id : String
  metadata : List (String × PyVal)
  embedding_id : String
  vectorOut : Option (List ℚ)
  indexPos : Nat
deriving DecidableEq

/-- Dot product of two vectors (cosine similarity on normalized
vectors). -/
def dotProduct : List ℚ → List ℚ → ℚ
  | a :: as, b :: bs => a * b + dotProduct as bs
  | _, _ => 0

/-- Modelled from the spec: the candidate restriction of the semantic
search engine (§4.5), whose implementing view (`views.SemanticSearch`,
referenced by `ai_copilot/urls.py`) is not part of the sources —
`source_type` membership and exact-match metadata equalities,
AND-combined. -/
def recordMatches (srcTypes : Option (List String)) (mFilters : List (String × PyVal))
    (c : EmbeddingRecord) : Bool :=
  (match srcTypes with
   | some ts => ts.contains c.source_type
   | none => true) &&
  mFilters.all (fun kv => decide (dictGet kv.1 c.metadata = some kv.2))

/-- The hit built for candidate `c` at original retrieval position `i`
with similarity `s`. -/
def mkSearchHit (includeVectors : Bool) (i : Nat) (c : EmbeddingRecord) (s : ℚ) :
    SearchHit :=
  { content := c.content
    similarity_score := s
    source_type := c.source_type
    source_id := c.source_id
    metadata := c.metadata
    embedding_id := c.id
    vectorOut := if includeVectors then some c.vector else none
    indexPos := i }

/-- The ranking order: higher similarity first, ties broken by the
candidates' original retrieval order. -/
def rankRel (a b : SearchHit) : Prop :=
  b.similarity_score < a.similarity_score ∨
    (a.similarity_score = b.similarity_score ∧ a.indexPos ≤ b.indexPos)

instance rankRelDec : DecidableRel rankRel := fun a b =>
  inferInstanceAs (Decidable (_ ∨ _ ∧ _))

instance rankRelTotal : IsTotal SearchHit rankRel :=
  ⟨fun a b => by
    unfold rankRel
    rcases lt_trichotomy a.similarity_score b.similarity_score with h | h | h
    · exact Or.inr (Or.inl h)
    · rcases Nat.le_total a.indexPos b.indexPos with hn | hn
      · exact Or.inl (Or.inr ⟨h, hn⟩)
      · exact Or.inr (Or.inr ⟨h.symm, hn⟩)
    · exact Or.inl (Or.inl h)⟩

instance rankRelTrans : IsTrans SearchHit rankRel :=
  ⟨fun a b c hab hbc => by
    unfold rankRel at *
    rcases hab with h1 | ⟨h1, h1i⟩ <;> rcases hbc with h2 | ⟨h2, h2i⟩
    · exact Or.inl (lt_trans h2 h1)
    · exact Or.inl (h2 ▸ h1)
    · exact Or.inl (h1 ▸ h2)
    · exact Or.inr ⟨h1.trans h2, le_trans h1i h2i⟩⟩

/-- Modelled from the spec: the qualifying pool of the semantic-search
ranking engine (§4.5), whose implementing view
(`views.SemanticSearch`, referenced by `ai_copilot/urls.py`) is not
part of the sources.  Candidates are enumerated in retrieval order,
restricted by the filters, scored by dot product against the query
vector, and thresholded (strictly-below-threshold candidates
discarded). -/
def rankPool (queryVec : List ℚ) (cands : List EmbeddingRecord) (threshold : ℚ)
    (srcTypes : Option (List String)) (mFilters : List (String × PyVal))
    (includeVectors : Bool) : List SearchHit :=
  (((cands.enum.filter (fun p => recordMatches srcTypes mFilters p.2)).map
    (fun p => mkSearchHit includeVectors p.1 p.2 (dotProduct queryVec p.2.vector))).filter
    (fun h => decide (threshold ≤ h.similarity_score)))

/-- Modelled from the spec: the full ranking contract of §4.5 — the
qualifying pool stably sorted by score descending (the strict
lexicographic key makes the tie-break by original retrieval order
explicit) and truncated to the first `top_k`. -/
def rankCandidates (queryVec : List ℚ) (cands : List EmbeddingRecord)
    (top_k : Nat) (threshold : ℚ) (srcTypes : Option (List String))
    (mFilters : List (String × PyVal)) (includeVectors : Bool) :
    List SearchHit :=
  (List.insertionSort rankRel
    (rankPool queryVec cands threshold srcTypes mFilters includeVectors)).take top_k

/-- A connected Supabase client all of whose calls raise (the backing
store is unreachable). -/
def failBackend : Backend :=
  { tableq := fun _ _ => .error ()
    rpc := fun _ _ => .error ()
    matchEmb := fun _ _ _ => .error () }

/-- A request environment with no Supabase client and no embedding
provider configured. -/
def noEnv : Env :=
  { client := none
    apiKey := none
    embedFn := fun _ => .error ()
    elapsedVec := 0
    elapsedSql := 0 }

/-- A sample retrieved inventory row. -/
def demoRowInv : Row := [("sku", PyVal.str "SKU-1001"), ("quantity", PyVal.int 120)]

/-- A sample non-empty evidence list: an empty vector batch plus one
inventory row. -/
def demoEvs : List RetrievalResult :=
  [{ source := "vector", rows := [], query_ms := 0 },
   { source := "inventory", rows := [demoRowInv], query_ms := 2 }]

/-- A sample non-empty evidence list none of whose rows carries any
allow-listed field. -/
def demoEvsNoFields : List RetrievalResult :=
  [{ source := "inventory", rows := [[("product_id", PyVal.str "X1")]], query_ms := 1 }]

/-- A sample stored embedding with a one-dimensional vector. -/
def demoRecord (idx : String) (v : ℚ) : EmbeddingRecord :=
  { id := idx
    content := "doc " ++ idx
    vector := [v]
    source_type := "document"
    source_id := ""
    metadata := [] }

/-- Three sample candidates with scores 2, 1, 3 against query vector
`[1]`. -/
def demoCands : List EmbeddingRecord :=
  [demoRecord "a" 2, demoRecord "b" 1, demoRecord "c" 3]

theorem rowFieldsFold (row : Row) (ks : List String) :
    ∀ acc : List String,
      ks.foldl
        (fun key_fields k =>
          match dictGet k row with
          | some v => if v = PyVal.null then key_fields else key_fields ++ [k ++ "=" ++ pyStr v]
          | none => key_fields)
        acc = acc ++ ks.filterMap (fieldEntry row) := by
  induction ks with
  | nil => intro acc; simp
  | cons k ks ih =>
    intro acc
    simp only [List.foldl_cons, List.filterMap_cons]
    cases h : dictGet k row with
    | none => simp [fieldEntry, h, ih]
    | some v =>
      by_cases hv : v = PyVal.null
      · simp [fieldEntry, h, hv, ih]
      · simp [fieldEntry, h, hv, ih, List.append_assoc]

theorem rowFields_eq (row : Row) :
    rowFields row = keyFieldOrder.filterMap (fieldEntry row) := by
  simpa [rowFields] using rowFieldsFold row keyFieldOrder []

theorem specSnippet_eq (row : Row) :
    specSnippet row =
      if rowFields row = [] then none
      else some (String.intercalate "; " (rowFields row)) := by
  simp [specSnippet, rowFields_eq]

theorem consolidateRowsFold (src : String) (rows : List Row) :
    ∀ acc : List String × List Citation,
      rows.foldl (consolidateRow src) acc =
        (acc.1 ++ rows.filterMap specSnippet,
         acc.2 ++ rows.map (fun r => ⟨src, r⟩)) := by
  induction rows with
  | nil => intro acc; simp
  | cons r rows ih =>
    intro acc
    simp only [List.foldl_cons, List.filterMap_cons, List.map_cons]
    rw [ih]
    unfold consolidateRow
    rw [specSnippet_eq]
    by_cases h : rowFields r = []
    · simp [h]
    · simp [h, List.append_assoc]

theorem consolidate_eq (evidences : List RetrievalResult) :
    consolidate evidences = (specSnippets evidences, specCitations evidences) := by
  suffices h : ∀ acc,
      evidences.foldl (fun acc ev => ev.rows.foldl (consolidateRow ev.source) acc) acc =
        (acc.1 ++ specSnippets evidences, acc.2 ++ specCitations evidences) by
    simpa [consolidate] using h ([], [])
  induction evidences with
  | nil => intro acc; simp [specSnippets, specCitations, allRows]
  | cons ev evs ih =>
    intro acc
    simp only [List.foldl_cons]
    rw [consolidateRowsFold, ih]
    simp [specSnippets, specCitations, allRows, List.filterMap_append, List.append_assoc]

theorem specCitations_length (evidences : List RetrievalResult) :
    (specCitations evidences).length = totalRows evidences := by
  induction evidences with
  | nil => simp [specCitations, totalRows]
  | cons ev evs ih =>
    simp only [specCitations, List.flatMap_cons, List.length_append, List.length_map,
      totalRows, List.map_cons, List.sum_cons] at ih ⊢
    omega

theorem answerLead_append_ne (s : String) : answerLead ++ s ≠ insufficiencyMsg := by
  intro h
  have h3 : answerLead.data ++ s.data = insufficiencyMsg.data := by
    rw [← String.data_append, h]
  have h4 : (answerLead.data ++ s.data).head? = insufficiencyMsg.data.head? := by rw [h3]
  have h5 : insufficiencyMsg.data.head? = some 'I' := rfl
  rw [show answerLead.data = 'B' :: "ased on Supabase data: ".data from rfl] at h4
  simp [h5] at h4

theorem format_answer_spec (question : String) (evidences : List RetrievalResult)
    (h : totalRows evidences ≠ 0) :
    format_answer question evidences =
      { answer := specAnswerText evidences
        citations := specCitations evidences
        sources := evidences.map (fun e => e.source) } := by
  simp [format_answer, h, consolidate_eq, specAnswerText]

/-- C1: the consolidator's answer text equals the fixed insufficiency
sentence iff the total row count across all evidence batches is zero,
and in that case the citations list is empty. -/
theorem claim_C1 (question : String) (evidences : List RetrievalResult) :
    ((format_answer question evidences).answer = insufficiencyMsg ↔
      totalRows evidences = 0) ∧
    (totalRows evidences = 0 → (format_answer question evidences).citations = []) := by
  by_cases h : totalRows evidences = 0
  · constructor
    · simp [format_answer, h]
    · intro _; simp [format_answer, h]
  · refine ⟨⟨fun hans => ?_, fun h0 => absurd h0 h⟩, fun h0 => absurd h0 h⟩
    rw [format_answer_spec question evidences h] at hans
    exact (answerLead_append_ne _ hans).elim

theorem claim_C1_witness :
    (format_answer "any question" []).answer = insufficiencyMsg ∧
    (format_answer "any question" []).citations = [] :=
  ⟨(claim_C1 "any question" []).1.mpr rfl, (claim_C1 "any question" []).2 rfl⟩

/-- C2: whenever the total row count is non-zero, `format_answer`
returns exactly one citation per retrieved row — the citation list is
the per-row `{source, row}` list in retrieval order across batches,
with no truncation, so its length is the total row count. -/
theorem claim_C2 (question : String) (evidences : List RetrievalResult)
    (h : totalRows evidences ≠ 0) :
    (format_answer question evidences).citations = specCitations evidences ∧
    (format_answer question evidences).citations.length = totalRows evidences := by
  rw [format_answer_spec question evidences h]
  exact ⟨rfl, specCitations_length evidences⟩

theorem claim_C2_witness :
    (format_answer "q" demoEvs).citations =
      [{ source := "inventory", row := demoRowInv }] ∧
    (format_answer "q" demoEvs).citations.length = totalRows demoEvs :=
  ⟨((claim_C2 "q" demoEvs (by decide)).1).trans (by decide),
   (claim_C2 "q" demoEvs (by decide)).2⟩

/-- C8: whenever evidence is non-empty, the answer text is the fixed
opening text followed by at most the first 10 per-row snippets joined
by `"; "`, where each snippet renders only the allow-listed fields
present with non-null values as `key=value`; the 10-snippet cap applies
to the rendered text only, never to citations. -/
theorem claim_C8 (question : String) (evidences : List RetrievalResult)
    (h : totalRows evidences ≠ 0) :
    (format_answer question evidences).answer = specAnswerText evidences ∧
    (format_answer question evidences).citations.length = totalRows evidences := by
  rw [format_answer_spec question evidences h]
  exact ⟨rfl, specCitations_length evidences⟩

theorem claim_C8_witness :
    (format_answer "q2" demoEvs).answer =
      "Based on Supabase data: sku=SKU-1001; quantity=120" ∧
    (format_answer "q2" demoEvs).citations.length = 1 :=
  ⟨((claim_C8 "q2" demoEvs (by decide)).1).trans (by decide),
   (claim_C8 "q2" demoEvs (by decide)).2.trans (by decide)⟩

/-- C9: for non-empty evidence in which no row has a non-null value for
any allow-listed field, the answer is exactly the bare fixed opening
text with zero snippets — not the insufficiency sentence — while one
citation per row is still emitted. -/
theorem claim_C9 (question : String) (evidences : List RetrievalResult)
    (h : totalRows evidences ≠ 0)
    (hnull : ∀ row ∈ allRows evidences, ∀ k ∈ keyFieldOrder,
      (dictGet k row).getD PyVal.null = PyVal.null) :
    (format_answer question evidences).answer = answerLead ∧
    (format_answer question evidences).answer ≠ insufficiencyMsg ∧
    (format_answer question evidences).citations.length = totalRows evidences := by
  have hsnip : specSnippets evidences = [] := by
    unfold specSnippets
    rw [List.filterMap_eq_nil]
    intro row hrow
    have hfields : keyFieldOrder.filterMap (fieldEntry row) = [] := by
      rw [List.filterMap_eq_nil]
      intro k hk
      have hkv := hnull row hrow k hk
      unfold fieldEntry
      cases hd : dictGet k row with
      | none => rfl
      | some v =>
        rw [hd] at hkv
        simp only [Option.getD_some] at hkv
        simp [hkv]
    simp [specSnippet, hfields]
  have hans : (format_answer question evidences).answer = answerLead := by
    rw [format_answer_spec question evidences h]
    simp only [specAnswerText, hsnip, List.take_nil]
    rw [show ("; ".intercalate ([] : List String)) = "" from rfl]
    simp
  refine ⟨hans, ?_, ?_⟩
  · rw [hans]
    intro habs
    have := answerLead_append_ne ""
    rw [show answerLead ++ "" = answerLead by simp] at this
    exact this habs
  · rw [format_answer_spec question evidences h]
    exact specCitations_length evidences

theorem claim_C9_witness :
    (format_answer "q3" demoEvsNoFields).answer = answerLead ∧
    (format_answer "q3" demoEvsNoFields).citations.length = 1 :=
  ⟨(claim_C9 "q3" demoEvsNoFields (by decide) (by decide)).1,
   ((claim_C9 "q3" demoEvsNoFields (by decide) (by decide)).2.2).trans (by decide)⟩

theorem vector_search_source (client : Option Backend) (apiKey : Option String)
    (embedFn : String → Except Unit (List ℚ)) (elapsedMs : ℚ) (query : String)
    (tk : Int) (th : ℚ) :
    (vector_search client apiKey embedFn elapsedMs query tk th).source = "vector" := by
  unfold vector_search
  repeat' split
  all_goals rfl

theorem format_answer_sources (question : String) (evidences : List RetrievalResult) :
    (format_answer question evidences).sources = evidences.map (fun e => e.source) := by
  unfold format_answer
  split <;> rfl

theorem kwMatch_iff (kws : List String) (ql : String) :
    kwMatch kws ql = true ↔ ∃ w ∈ kws, strContains ql w = true := by
  simp [kwMatch, List.any_eq_true]

theorem copilotEvidences_sources (env : Env) (question : String) (filters : Filters)
    (tk : Int) :
    (copilotEvidences env question filters tk).map (fun e => e.source) =
      "vector" :: (copilotIntents question filters tk).map (fun t => t.1) := by
  simp [copilotEvidences, vector_search_source, List.map_map, Function.comp]

/-- C5: intent classification activates exactly the domains one of
whose fixed keywords occurs as a substring of the lower-cased query;
domains are not mutually exclusive, an unmatched query activates no
domain, and the vector evidence source heads the evidence list for
every query. -/
theorem claim_C5 (question : String) (filters : Filters) (tk : Int) (env : Env) :
    (("inventory" ∈ (copilotIntents question filters tk).map (fun t => t.1)) ↔
      ∃ w ∈ inventoryKeywords, strContains (pyLower question) w = true) ∧
    (("orders" ∈ (copilotIntents question filters tk).map (fun t => t.1)) ↔
      ∃ w ∈ ordersKeywords, strContains (pyLower question) w = true) ∧
    (("risk_events" ∈ (copilotIntents question filters tk).map (fun t => t.1)) ↔
      ∃ w ∈ riskKeywords, strContains (pyLower question) w = true) ∧
    (("analytics_metrics" ∈ (copilotIntents question filters tk).map (fun t => t.1)) ↔
      ∃ w ∈ analyticsKeywords, strContains (pyLower question) w = true) ∧
    ((copilotIntents question filters tk).map (fun t => t.1) =
      (if kwMatch inventoryKeywords (pyLower question) then ["inventory"] else []) ++
      (if kwMatch ordersKeywords (pyLower question) then ["orders"] else []) ++
      (if kwMatch riskKeywords (pyLower question) then ["risk_events"] else []) ++
      (if kwMatch analyticsKeywords (pyLower question) then ["analytics_metrics"] else [])) ∧
    ((copilotEvidences env question filters tk).map (fun e => e.source)).head? =
      some "vector" := by
  refine ⟨?_, ?_, ?_, ?_, ?_, ?_⟩
  · by_cases h1 : kwMatch inventoryKeywords (pyLower question) <;>
      simp [copilotIntents, ← kwMatch_iff, h1, apply_ite (List.map (fun t : String × String × Filters => t.1))]
  · by_cases h2 : kwMatch ordersKeywords (pyLower question) <;>
      by_cases h1 : kwMatch inventoryKeywords (pyLower question) <;>
      simp [copilotIntents, ← kwMatch_iff, h1, h2]
  · by_cases h3 : kwMatch riskKeywords (pyLower question) <;>
      by_cases h1 : kwMatch inventoryKeywords (pyLower question) <;>
      by_cases h2 : kwMatch ordersKeywords (pyLower question) <;>
      simp [copilotIntents, ← kwMatch_iff, h1, h2, h3]
  · by_cases h4 : kwMatch analyticsKeywords (pyLower question) <;>
      by_cases h1 : kwMatch inventoryKeywords (pyLower question) <;>
      by_cases h2 : kwMatch ordersKeywords (pyLower question) <;>
      by_cases h3 : kwMatch riskKeywords (pyLower question) <;>
      simp [copilotIntents, ← kwMatch_iff, h1, h2, h3, h4]
  · by_cases h1 : kwMatch inventoryKeywords (pyLower question) <;>
      by_cases h2 : kwMatch ordersKeywords (pyLower question) <;>
      by_cases h3 : kwMatch riskKeywords (pyLower question) <;>
      by_cases h4 : kwMatch analyticsKeywords (pyLower question) <;>
      simp [copilotIntents, h1, h2, h3, h4]
  · rw [copilotEvidences_sources]
    rfl

/-- C10: the evidence batch labels visible in the chat response are the
backing table names — `risk_events` and `analytics_metrics` for the
risk and analytics domains (never the bare domain words `risk` and
`analytics`), `inventory` and `orders` for those domains, and `vector`
for the vector batch; the answer's sources list carries exactly those
labels. -/
theorem claim_C10 (env : Env) (question : String) (filters : Filters) (tk : Int) :
    ((copilotEvidences env question filters tk).map (fun e => e.source) =
      "vector" :: (copilotIntents question filters tk).map (fun t => t.1)) ∧
    (∀ s ∈ (copilotEvidences env question filters tk).map (fun e => e.source),
      s ∈ ["vector", "inventory", "orders", "risk_events", "analytics_metrics"]) ∧
    ("risk" ∉ (copilotEvidences env question filters tk).map (fun e => e.source)) ∧
    ("analytics" ∉ (copilotEvidences env question filters tk).map (fun e => e.source)) ∧
    ((kwMatch riskKeywords (pyLower question) = true) ↔
      "risk_events" ∈ (copilotEvidences env question filters tk).map (fun e => e.source)) ∧
    ((kwMatch analyticsKeywords (pyLower question) = true) ↔
      "analytics_metrics" ∈ (copilotEvidences env question filters tk).map (fun e => e.source)) ∧
    ((kwMatch inventoryKeywords (pyLower question) = true) ↔
      "inventory" ∈ (copilotEvidences env question filters tk).map (fun e => e.source)) ∧
    ((kwMatch ordersKeywords (pyLower question) = true) ↔
      "orders" ∈ (copilotEvidences env question filters tk).map (fun e => e.source)) ∧
    ((copilotAnswer env question filters tk).sources =
      (copilotEvidences env question filters tk).map (fun e => e.source)) := by
  rw [copilotEvidences_sources]
  refine ⟨rfl, ?_, ?_, ?_, ?_, ?_, ?_, ?_,
    (format_answer_sources question (copilotEvidences env question filters tk)).trans
      (copilotEvidences_sources env question filters tk)⟩
  all_goals
    by_cases h1 : kwMatch inventoryKeywords (pyLower question) <;>
      by_cases h2 : kwMatch ordersKeywords (pyLower question) <;>
      by_cases h3 : kwMatch riskKeywords (pyLower question) <;>
      by_cases h4 : kwMatch analyticsKeywords (pyLower question) <;>
      simp [copilotIntents, h1, h2, h3, h4]

theorem claim_C10_witness :
    "risk_events" ∈ (copilotEvidences noEnv "any delivery risk?" [] 8).map (fun e => e.source) ∧
    "vector" ∈ ["vector", "inventory", "orders", "risk_events", "analytics_metrics"] ∧
    "risk" ∉ (copilotEvidences noEnv "any delivery risk?" [] 8).map (fun e => e.source) :=
  ⟨(claim_C10 noEnv "any delivery risk?" [] 8).2.2.2.2.1.mp (by decide),
   (claim_C10 noEnv "any delivery risk?" [] 8).2.1 "vector" (by decide),
   (claim_C10 noEnv "any delivery risk?" [] 8).2.2.1⟩

/-- C6 counterexample: with a configured client whose backing store is
unreachable (every call raises), `run_sql` returns zero rows but the
measured elapsed latency — here 5 ms — not zero latency as the claim
states. -/
theorem claim_C6_counterexample :
    (run_sql (some failBackend) 5 "select * from inventory" none).rows = [] ∧
    (run_sql (some failBackend) 5 "select * from inventory" none).query_ms ≠ 0 := by
  decide

/-- C6 amended: `run_sql` never raises and degrades to zero rows in
both failure modes; the latency is zero when no client is configured
(misconfiguration), and the measured elapsed wall-clock time — not
necessarily zero — when a configured backing store fails. -/
theorem claim_C6_amended (client : Option Backend) (elapsedMs : ℚ) (sql : String)
    (params : Option Filters) :
    (client = none →
      run_sql client elapsedMs sql params =
        { source := "supabase", rows := [], query_ms := 0 }) ∧
    (∀ b, client = some b → ∀ e, runSqlBody b sql params = .error e →
      (run_sql client elapsedMs sql params).rows = [] ∧
      (run_sql client elapsedMs sql params).query_ms = elapsedMs) := by
  constructor
  · intro h; subst h; rfl
  · intro b hb e herr
    subst hb
    simp [run_sql, herr]

theorem claim_C6_amended_witness :
    run_sql none 7 "select * from orders" none =
      { source := "supabase", rows := [], query_ms := 0 } ∧
    (run_sql (some failBackend) 7 "select * from orders" none).rows = [] ∧
    (run_sql (some failBackend) 7 "select * from orders" none).query_ms = 7 :=
  ⟨(claim_C6_amended none 7 "select * from orders" none).1 rfl,
   ((claim_C6_amended (some failBackend) 7 "select * from orders" none).2
      failBackend rfl () (by rfl)).1,
   ((claim_C6_amended (some failBackend) 7 "select * from orders" none).2
      failBackend rfl () (by rfl)).2⟩

/-- C7: `vector_search` returns an empty batch whenever the query
embedding cannot be obtained (no provider configured, or a falsy
result) and whenever the nearest-neighbor backend call raises; being a
total function of its oracles, it never raises itself. -/
theorem claim_C7 (client : Option Backend) (apiKey : Option String)
    (embedFn : String → Except Unit (List ℚ)) (elapsedMs : ℚ) (query : String)
    (tk : Int) (th : ℚ) :
    ((get_embedding apiKey embedFn query = none ∨
      get_embedding apiKey embedFn query = some []) →
      (vector_search client apiKey embedFn elapsedMs query tk th).rows = []) ∧
    (∀ b, client = some b → ∀ v, get_embedding apiKey embedFn query = some v →
      ∀ e, b.matchEmb v tk th = .error e →
      (vector_search client apiKey embedFn elapsedMs query tk th).rows = []) := by
  constructor
  · intro h
    cases client with
    | none => rfl
    | some b =>
      unfold vector_search
      rcases h with h | h <;> simp [h]
  · intro b hb v hv e herr
    subst hb
    unfold vector_search
    rw [hv]
    by_cases hvnil : v = []
    · simp [hvnil]
    · simp only [if_neg hvnil, herr]

theorem claim_C7_witness :
    (vector_search (some failBackend) none (fun _ => .error ()) 3 "status of order 7" 8
      (15 / 100)).rows = [] :=
  (claim_C7 (some failBackend) none (fun _ => .error ()) 3 "status of order 7" 8
    (15 / 100)).1 (Or.inl rfl)

theorem randRow_zero : randRow demoStream 0 = List.replicate EMBED_DIM 1 := by
  unfold randRow
  rw [List.eq_replicate_iff]
  refine ⟨by simp, ?_⟩
  intro b hb
  simp only [List.mem_map, List.mem_range] at hb
  obtain ⟨j, hj, hb⟩ := hb
  rw [← hb]
  unfold demoStream
  rw [if_pos]
  unfold EMBED_DIM at hj
  omega

theorem randRow_second : randRow demoStream 768 = 1 :: List.replicate 767 0 := by
  unfold randRow EMBED_DIM
  rw [show (768 : Nat) = 767 + 1 by norm_num, List.range_succ_eq_map]
  rw [List.map_cons, List.map_map, List.cons_eq_cons]
  constructor
  · show demoStream (767 + 1 + 0) = 1
    unfold demoStream
    rw [if_pos]
    omega
  · rw [List.eq_replicate_iff]
    refine ⟨by simp, ?_⟩
    intro b hb
    simp only [List.mem_map, List.mem_range, Function.comp] at hb
    obtain ⟨j, hj, hb⟩ := hb
    rw [← hb]
    unfold demoStream
    rw [if_neg]
    omega

theorem l2norm_ones : l2norm (List.replicate EMBED_DIM 1) = Real.sqrt 768 := by
  unfold l2norm EMBED_DIM
  rw [List.map_replicate, List.sum_replicate]
  norm_num

theorem l2norm_second : l2norm (1 :: List.replicate 767 0) = 1 := by
  unfold l2norm
  rw [List.map_cons, List.map_replicate, List.sum_cons, List.sum_replicate]
  norm_num

theorem demo_head_first :
    (l2normalize (randRow demoStream 0)).head? = some (1 / Real.sqrt 768) := by
  rw [randRow_zero]
  unfold l2normalize
  rw [l2norm_ones]
  unfold EMBED_DIM
  rw [show (768 : Nat) = 767 + 1 by norm_num, List.replicate_succ]
  rw [List.map_cons, List.head?_cons]

theorem demo_head_second :
    (l2normalize (randRow demoStream 768)).head? = some 1 := by
  rw [randRow_second]
  unfold l2normalize
  rw [l2norm_second]
  rw [List.map_cons, List.head?_cons]
  norm_num

theorem one_lt_sqrt768 : (1 : ℝ) < Real.sqrt 768 := by
  rw [show (1:ℝ) = Real.sqrt 1 from Real.sqrt_one.symm]
  exact Real.sqrt_lt_sqrt (by norm_num) (by norm_num)

theorem demo_vec_ne :
    l2normalize (randRow demoStream 0) ≠ l2normalize (randRow demoStream 768) := by
  intro h
  have h2 : some (1 / Real.sqrt 768) = some (1 : ℝ) := by
    rw [← demo_head_first, ← demo_head_second, h]
  have h3 : 1 / Real.sqrt 768 = (1 : ℝ) := by injection h2
  have h4 : Real.sqrt 768 = 1 := by
    have hpos : (0:ℝ) < Real.sqrt 768 := lt_trans one_pos one_lt_sqrt768
    field_simp at h3
    linarith [h3]
  linarith [one_lt_sqrt768]

theorem embed_texts_fail_single (stream : Nat → ℝ) (pos : Nat) (t : String) :
    embed_texts failEmbedBackend failEmbedBackend stream pos [t] =
      ([l2normalize (randRow stream pos)], pos + EMBED_DIM) := by
  simp [embed_texts, failEmbedBackend, randUnitRows, List.range_succ]

/-- C4 counterexample: with no real embedding backend configured, the
seed script's last-resort fallback draws from the advancing NumPy
stream, so two successive calls with the identical text return
different vectors — the operation is not a function of the text
alone. -/
theorem claim_C4_counterexample :
    (embed_texts failEmbedBackend failEmbedBackend demoStream 0 ["restock eta"]).1 ≠
      (embed_texts failEmbedBackend failEmbedBackend demoStream
        (embed_texts failEmbedBackend failEmbedBackend demoStream 0 ["restock eta"]).2
        ["restock eta"]).1 := by
  intro h
  rw [embed_texts_fail_single] at h
  rw [embed_texts_fail_single] at h
  simp only [List.cons.injEq, and_true] at h
  rw [show (0 + EMBED_DIM : Nat) = 768 by norm_num [EMBED_DIM]] at h
  exact demo_vec_ne h

/-- C4 amended: when no real backend is configured, the API-side
`get_embedding` deterministically returns no vector at all, while the
seed script's last-resort fallback is a function of the RNG stream
position and the number of texts only — independent of the text
content — and advances the RNG state, so successive calls with
identical arguments return different vectors. -/
theorem claim_C4_amended :
    (∀ (apiKey : Option String) (embedFn : String → Except Unit (List ℚ)) (text : String),
      apiKey.getD "" = "" → get_embedding apiKey embedFn text = none) ∧
    (∀ (stream : Nat → ℝ) (pos : Nat) (texts texts2 : List String),
      texts.length = texts2.length →
      embed_texts failEmbedBackend failEmbedBackend stream pos texts =
        embed_texts failEmbedBackend failEmbedBackend stream pos texts2) := by
  constructor
  · intro apiKey embedFn text h
    unfold get_embedding
    rw [if_pos h]
  · intro stream pos texts texts2 hlen
    simp only [embed_texts, failEmbedBackend, hlen]

theorem claim_C4_witness :
    get_embedding none (fun _ => .error ()) "stock levels" = none ∧
    embed_texts failEmbedBackend failEmbedBackend demoStream 0 ["alpha"] =
      embed_texts failEmbedBackend failEmbedBackend demoStream 0 ["beta"] :=
  ⟨claim_C4_amended.1 none (fun _ => .error ()) "stock levels" rfl,
   claim_C4_amended.2 demoStream 0 ["alpha"] ["beta"] rfl⟩

theorem rankPool_idx_nodup (queryVec : List ℚ) (cands : List EmbeddingRecord)
    (threshold : ℚ) (srcTypes : Option (List String))
    (mFilters : List (String × PyVal)) (incV : Bool) :
    ((rankPool queryVec cands threshold srcTypes mFilters incV).map
      (fun h => h.indexPos)).Nodup := by
  have h1 : ((cands.enum.filter (fun p => recordMatches srcTypes mFilters p.2)).map
      Prod.fst).Nodup :=
    (List.nodup_enum_map_fst cands).sublist ((List.filter_sublist _).map Prod.fst)
  have h2 : ((cands.enum.filter (fun p => recordMatches srcTypes mFilters p.2)).map
      (fun p => mkSearchHit incV p.1 p.2 (dotProduct queryVec p.2.vector))).map
      (fun h => h.indexPos) =
      (cands.enum.filter (fun p => recordMatches srcTypes mFilters p.2)).map Prod.fst := by
    rw [List.map_map]
    rfl
  have hsub := (List.filter_sublist (l :=
    (cands.enum.filter (fun p => recordMatches srcTypes mFilters p.2)).map
      (fun p => mkSearchHit incV p.1 p.2 (dotProduct queryVec p.2.vector)))
    (p := fun h => decide (threshold ≤ h.similarity_score))).map
    (fun h : SearchHit => h.indexPos)
  rw [h2] at hsub
  exact h1.sublist hsub

theorem rankCandidates_idx_nodup (queryVec : List ℚ) (cands : List EmbeddingRecord)
    (top_k : Nat) (threshold : ℚ) (srcTypes : Option (List String))
    (mFilters : List (String × PyVal)) (incV : Bool) :
    ((rankCandidates queryVec cands top_k threshold srcTypes mFilters incV).map
      (fun h => h.indexPos)).Nodup := by
  have h4 : ((List.insertionSort rankRel
      (rankPool queryVec cands threshold srcTypes mFilters incV)).map
      (fun h => h.indexPos)).Nodup :=
    (((List.perm_insertionSort rankRel _).map _).nodup_iff).mpr
      (rankPool_idx_nodup queryVec cands threshold srcTypes mFilters incV)
  exact h4.sublist ((List.take_sublist _ _).map _)

theorem rankCandidates_pairwise (queryVec : List ℚ) (cands : List EmbeddingRecord)
    (top_k : Nat) (threshold : ℚ) (srcTypes : Option (List String))
    (mFilters : List (String × PyVal)) (incV : Bool) :
    (rankCandidates queryVec cands top_k threshold srcTypes mFilters incV).Pairwise
      rankRel := by
  unfold rankCandidates
  exact (List.sorted_insertionSort rankRel _).sublist (List.take_sublist _ _)

/-- C3: every semantic-search result list is sorted by similarity
score non-increasing, every returned score is at least the threshold
(strictly-below-threshold candidates are discarded), the list has at
most `top_k` entries, and equal-score results appear in the
candidates' original retrieval order (stable ranking). -/
theorem claim_C3 (queryVec : List ℚ) (cands : List EmbeddingRecord) (top_k : Nat)
    (threshold : ℚ) (srcTypes : Option (List String)) (mFilters : List (String × PyVal))
    (incV : Bool) :
    (rankCandidates queryVec cands top_k threshold srcTypes mFilters incV).length ≤ top_k ∧
    (∀ h ∈ rankCandidates queryVec cands top_k threshold srcTypes mFilters incV,
      threshold ≤ h.similarity_score) ∧
    (∀ (i j : Nat)
      (hi : i < (rankCandidates queryVec cands top_k threshold srcTypes mFilters incV).length)
      (hj : j < (rankCandidates queryVec cands top_k threshold srcTypes mFilters incV).length),
      i < j →
      (((rankCandidates queryVec cands top_k threshold srcTypes mFilters incV).get
          ⟨j, hj⟩).similarity_score ≤
        ((rankCandidates queryVec cands top_k threshold srcTypes mFilters incV).get
          ⟨i, hi⟩).similarity_score) ∧
      (((rankCandidates queryVec cands top_k threshold srcTypes mFilters incV).get
          ⟨i, hi⟩).similarity_score =
        ((rankCandidates queryVec cands top_k threshold srcTypes mFilters incV).get
          ⟨j, hj⟩).similarity_score →
        ((rankCandidates queryVec cands top_k threshold srcTypes mFilters incV).get
          ⟨i, hi⟩).indexPos <
        ((rankCandidates queryVec cands top_k threshold srcTypes mFilters incV).get
          ⟨j, hj⟩).indexPos)) := by
  refine ⟨?_, ?_, ?_⟩
  · unfold rankCandidates
    simpa using Nat.min_le_left top_k _
  · intro h hmem
    unfold rankCandidates at hmem
    have h1 := List.mem_of_mem_take hmem
    rw [List.mem_insertionSort] at h1
    have h2 := List.of_mem_filter h1
    exact of_decide_eq_true h2
  · intro i j hi hj hij
    have hpw := rankCandidates_pairwise queryVec cands top_k threshold srcTypes mFilters incV
    have hrel := List.pairwise_iff_get.mp hpw ⟨i, hi⟩ ⟨j, hj⟩ hij
    constructor
    · rcases hrel with h | ⟨h, _⟩
      · exact le_of_lt h
      · exact le_of_eq h.symm
    · intro hsc
      rcases hrel with h | ⟨_, hidx⟩
      · exact absurd hsc (ne_of_gt h)
      · refine lt_of_le_of_ne hidx ?_
        intro heq
        have hnd := rankCandidates_idx_nodup queryVec cands top_k threshold srcTypes
          mFilters incV
        have hinj := List.nodup_iff_injective_get.mp hnd
        have hgi : ((rankCandidates queryVec cands top_k threshold srcTypes mFilters
            incV).map (fun h => h.indexPos)).get ⟨i, by simpa using hi⟩ =
            ((rankCandidates queryVec cands top_k threshold srcTypes mFilters
            incV).map (fun h => h.indexPos)).get ⟨j, by simpa using hj⟩ := by
          simp only [List.get_map]
          exact heq
        have hfin := hinj hgi
        have hij2 : i = j := by
          simpa using congrArg Fin.val hfin
        omega

theorem demoRank_eval :
    rankCandidates [1] demoCands 2 (3 / 2) none [] false =
      [mkSearchHit false 2 (demoRecord "c" 3) 3,
       mkSearchHit false 0 (demoRecord "a" 2) 2] := by
  norm_num [rankCandidates, rankPool, demoCands, demoRecord, mkSearchHit, dotProduct,
    recordMatches, rankRel, List.insertionSort, List.orderedInsert, List.enum,
    List.enumFrom, List.filter]

theorem claim_C3_witness :
    (rankCandidates [1] demoCands 2 (3 / 2) none [] false).length ≤ 2 ∧
    (3 : ℚ) / 2 ≤ ((rankCandidates [1] demoCands 2 (3 / 2) none [] false).get
      ⟨0, by rw [demoRank_eval]; decide⟩).similarity_score ∧
    ((rankCandidates [1] demoCands 2 (3 / 2) none [] false).get
      ⟨1, by rw [demoRank_eval]; decide⟩).similarity_score ≤
    ((rankCandidates [1] demoCands 2 (3 / 2) none [] false).get
      ⟨0, by rw [demoRank_eval]; decide⟩).similarity_score :=
  ⟨(claim_C3 [1] demoCands 2 (3 / 2) none [] false).1,
   (claim_C3 [1] demoCands 2 (3 / 2) none [] false).2.1 _ (List.get_mem _ _ _),
   ((claim_C3 [1] demoCands 2 (3 / 2) none [] false).2.2 0 1
     (by rw [demoRank_eval]; decide) (by rw [demoRank_eval]; decide) (by decide)).1⟩
